import Mathlib

/-!
Shallow embedding of the pycaustic instruction evaluation engine
(`src/pycaustic/scraper.py`) together with the template-substitution
subsystem it uses.  The repository ships only `scraper.py` and the
template test-suite; the modules `templates.py` (class `Substitution`),
`patterns.py` (class `Regex`), `responses.py` and `errors.py` are not in
the source tree, so those parts are modelled from the specification and
are marked `Modelled from the spec:` in their doc comments.  Everything
else is translated directly from `scraper.py`.

Python-level conventions of the embedding:
* a Python dict with string keys is an association list with unique keys,
  in insertion order;
* raising an exception is returning `Except.error` carrying a `PyErr`;
* in-place mutation of the caller's instruction dict is made explicit by
  returning the post-state of the dict next to the response.
-/

namespace Pycaustic

/-- Python exceptions that the engine can raise.  `invalidInstruction` and
`templateError` come from the repository's `errors` module (imported by
`scraper.py`); `templateResultError` is raised when the result of an
incomplete template is read (see `src/tests/test_templates.py`);
`typeError` / `attributeError` / `notImplementedError` / `recursionError`
are the built-in Python exceptions the source can raise. -/
inductive PyErr where
  | invalidInstruction (msg : String)
  | templateError (msg : String)
  | templateResultError
  | typeError (msg : String)
  | attributeError (msg : String)
  | notImplementedError (msg : String)
  | recursionError
deriving Repr, DecidableEq

/-- The opening brace character, written by code point to keep brace
characters out of literals. -/
def obr : Char := Char.ofNat 123

/-- The closing brace character. -/
def cbr : Char := Char.ofNat 125

/-- Modelled from the spec: one piece of a scanned string template —
literal text, an encoded (double-brace) placeholder, or a raw
(triple-brace) placeholder (`templates.py` is not in src/). -/
inductive TPart where
  | lit (s : String)
  | enc (name : String)
  | raw (name : String)
deriving Repr, DecidableEq

/-- Split a character list at the first occurrence of two consecutive
closing braces; returns the characters before the braces and those after. -/
def splitClose2 : List Char → Option (List Char × List Char)
  | [] => none
  | c :: rest =>
    match rest with
    | c2 :: rest2 =>
      if c = cbr && c2 = cbr then some ([], rest2)
      else (splitClose2 rest).map (fun p => (c :: p.1, p.2))
    | [] => none

/-- Split a character list at the first occurrence of three consecutive
closing braces. -/
def splitClose3 : List Char → Option (List Char × List Char)
  | [] => none
  | c :: rest =>
    match rest with
    | c2 :: c3 :: rest3 =>
      if c = cbr && c2 = cbr && c3 = cbr then some ([], rest3)
      else (splitClose3 rest).map (fun p => (c :: p.1, p.2))
    | _ => none

/-- Modelled from the spec: scan a template string for `(((name)))`-style
triple-brace (raw) and `((name))`-style double-brace (encoded)
placeholders, written here with braces; a triple-brace match takes
precedence over a double-brace one.  The fuel argument is a recursion
budget; each step consumes at least one character, so `length + 1` fuel
always suffices. -/
def scanT : Nat → List Char → List TPart
  | 0, cs => if cs.isEmpty then [] else [TPart.lit (String.mk cs)]
  | fuel + 1, [] => let _ := fuel; []
  | fuel + 1, c :: rest =>
    if c = obr then
      match rest with
      | c2 :: rest2 =>
        if c2 = obr then
          match rest2 with
          | c3 :: rest3 =>
            if c3 = obr then
              match splitClose3 rest3 with
              | some (name, after) => TPart.raw (String.mk name) :: scanT fuel after
              | none => [TPart.lit (String.mk (c :: rest))]
            else
              match splitClose2 rest2 with
              | some (name, after) => TPart.enc (String.mk name) :: scanT fuel after
              | none => [TPart.lit (String.mk (c :: rest))]
          | [] =>
            match splitClose2 rest2 with
            | some (name, after) => TPart.enc (String.mk name) :: scanT fuel after
            | none => [TPart.lit (String.mk (c :: rest))]
        else TPart.lit (String.singleton c) :: scanT fuel rest
      | [] => [TPart.lit (String.singleton c)]
    else TPart.lit (String.singleton c) :: scanT fuel rest

/-- Scan a whole template string into parts. -/
def scanTmpl (s : String) : List TPart := scanT (s.length + 1) s.data

/-- One hexadecimal digit, uppercase. -/
def hexDigit (n : Nat) : Char :=
  if n < 10 then Char.ofNat (48 + n) else Char.ofNat (55 + n)

/-- Percent-encode one byte. -/
def pctByte (b : Nat) : String :=
  String.mk ['%', hexDigit (b / 16 % 16), hexDigit (b % 16)]

/-- UTF-8 bytes of a code point. -/
def utf8Bytes (n : Nat) : List Nat :=
  if n < 128 then [n]
  else if n < 2048 then [192 + n / 64, 128 + n % 64]
  else if n < 65536 then [224 + n / 4096, 128 + n / 64 % 64, 128 + n % 64]
  else [240 + n / 262144, 128 + n / 4096 % 64, 128 + n / 64 % 64, 128 + n % 64]

/-- Modelled from the spec: url-encode one character the way the
substitution engine does — space becomes `+`, letters, digits and
`_ . -` stay, anything else is percent-encoded byte by byte. -/
def quotePlusChar (c : Char) : String :=
  if c = ' ' then "+"
  else if c.isAlphanum || c = '_' || c = '.' || c = '-' then String.singleton c
  else String.join ((utf8Bytes c.toNat).map pctByte)

/-- Modelled from the spec: percent/url-encode a string, spaces as `+`. -/
def quotePlus (s : String) : String :=
  String.join (s.data.map quotePlusChar)

/-- A tag map: string name to string value. -/
abbrev Tags := List (String × String)

/-- Python `tags.get(name)`. -/
def tagGet (tags : Tags) (n : String) : Option String :=
  (tags.find? (fun p => p.1 = n)).map (fun p => p.2)

/-- Substitute a list of scanned parts against a tag map, returning the
assembled string and the missing tag names in discovery order (with
duplicates, deduplicated by the caller). -/
def subParts (tags : Tags) : List TPart → String × List String
  | [] => ("", [])
  | TPart.lit s :: rest =>
    let r := subParts tags rest
    (s ++ r.1, r.2)
  | TPart.enc n :: rest =>
    let r := subParts tags rest
    match tagGet tags n with
    | some v => (quotePlus v ++ r.1, r.2)
    | none => (r.1, n :: r.2)
  | TPart.raw n :: rest =>
    let r := subParts tags rest
    match tagGet tags n with
    | some v => (v ++ r.1, r.2)
    | none => (r.1, n :: r.2)

/-- Modelled from the spec: resolve a string template against a tag map;
returns the substituted string together with the missing names in
discovery order (not yet deduplicated). -/
def subTmplStr (tags : Tags) (s : String) : String × List String :=
  subParts tags (scanTmpl s)

/-- Deduplicate, keeping the first occurrence of each name. -/
def dedupAux (seen : List String) : List String → List String
  | [] => []
  | x :: xs =>
    if seen.contains x then dedupAux seen xs
    else x :: dedupAux (seen ++ [x]) xs

/-- Deduplicate a missing-name list, preserving discovery order. -/
def dedupNames (l : List String) : List String := dedupAux [] l

/-- A Python value as it appears inside an instruction document: `None`,
a bool, an int, a (template) string, a dict with string keys, or a list. -/
inductive Value where
  | vNull
  | vBool (b : Bool)
  | vNum (n : Int)
  | vStr (s : String)
  | vDict (entries : List (String × Value))
  | vList (items : List Value)
deriving Repr

/-- A resolved substitution value: `None`, a string, or a dict of strings
(mapping-template values must resolve to scalars, which resolve to their
string form). -/
inductive SubValue where
  | null
  | str (s : String)
  | dict (entries : List (String × String))
deriving Repr, DecidableEq

/-- Python truthiness of a resolved value: `None` and empty strings/dicts
are falsy. -/
def truthyS : SubValue → Bool
  | SubValue.null => false
  | SubValue.str s => !s.isEmpty
  | SubValue.dict d => !d.isEmpty

/-- Python truthiness of an instruction value. -/
def truthyV : Value → Bool
  | Value.vNull => false
  | Value.vBool b => b
  | Value.vNum n => n != 0
  | Value.vStr s => !s.isEmpty
  | Value.vDict d => !d.isEmpty
  | Value.vList l => !l.isEmpty

/-- Python `value is None`. -/
def isNone : Value → Bool
  | Value.vNull => true
  | _ => false

/-- Render a value roughly the way Python's `str` would, for error
messages (only the scalar cases are exercised by the source). -/
def pyStrV : Value → String
  | Value.vNull => "None"
  | Value.vBool b => if b then "True" else "False"
  | Value.vNum n => toString n
  | Value.vStr s => s
  | Value.vDict _ => "<dict>"
  | Value.vList _ => "<list>"

/-- Render a resolved substitution value for interpolation into an error
message. -/
def pyStrS : SubValue → String
  | SubValue.null => "None"
  | SubValue.str s => s
  | SubValue.dict _ => "<dict>"

/-- Modelled from the spec: the `(resolved value, missing tag names)`
pair a `Substitution` carries (`templates.py` is not in src/).  `value`
is only valid to read when `missing` is empty. -/
structure Subst where
  missing : List String
  value : SubValue
deriving Repr, DecidableEq

/-- Modelled from the spec: reading the result of an incomplete template
raises the incomplete-template error (`TemplateResultError` in the
tests); otherwise it returns the resolved value. -/
def Subst.result (s : Subst) : Except PyErr SubValue :=
  if s.missing.isEmpty then Except.ok s.value else Except.error PyErr.templateResultError

/-- Resolve a scalar template to its string form: string templates are
scanned and substituted, numbers and booleans are coerced to their
canonical string form (never missing).  Non-scalars return `none`. -/
def subScalar (tags : Tags) : Value → Option (String × List String)
  | Value.vStr s => some (subTmplStr tags s)
  | Value.vNum n => some (toString n, [])
  | Value.vBool b => some (if b then "True" else "False", [])
  | _ => none

/-- Resolve the entries of a mapping template: each key is a string
template and each value must be a scalar template; missing names are
collected across keys and values in discovery order. -/
def subDictEntries (tags : Tags) : List (String × Value) → Except PyErr (List (String × String) × List String)
  | [] => Except.ok ([], [])
  | (k, v) :: rest =>
    let rk := subTmplStr tags k
    match subScalar tags v with
    | none => Except.error (PyErr.templateError "non-scalar nested where a scalar is required")
    | some rv =>
      (subDictEntries tags rest).map (fun es => ((rk.1, rv.1) :: es.1, rk.2 ++ rv.2 ++ es.2))

/-- Modelled from the spec: `Substitution(template, tags)` — resolve a
template value against a tag map, reporting missing names without
failing; `None` and numbers/booleans are never missing; mapping
templates resolve both keys and values; any other shape (a list) raises
`TemplateError` (`templates.py` is not in src/). -/
def Substitution (v : Value) (tags : Tags) : Except PyErr Subst :=
  match v with
  | Value.vNull => Except.ok ⟨[], SubValue.null⟩
  | Value.vBool b => Except.ok ⟨[], SubValue.str (if b then "True" else "False")⟩
  | Value.vNum n => Except.ok ⟨[], SubValue.str (toString n)⟩
  | Value.vStr s =>
    let r := subTmplStr tags s
    Except.ok ⟨dedupNames r.2, SubValue.str r.1⟩
  | Value.vDict d =>
    (subDictEntries tags d).map (fun es => ⟨dedupNames es.2, SubValue.dict es.1⟩)
  | Value.vList _ => Except.error (PyErr.templateError "templates can only be made from strings, dicts, and None")

/-- Modelled from the spec: `Substitution.add_missing(subs...)` — the
union of each substitution's missing names, deduplicated, discovery
order preserved. -/
def addMissing (subs : List Subst) : List String :=
  dedupNames (subs.foldr (fun s acc => s.missing ++ acc) [])

/-- An instruction dict: a Python dict with string keys, kept in
insertion order with unique keys. -/
abbrev Instr := List (String × Value)

/-- Python `instruction[k]` / `instruction.get(k)`. -/
def instrGet : Instr → String → Option Value
  | [], _ => none
  | (k', v) :: rest, k => if k' = k then some v else instrGet rest k

/-- Python `instruction.get(k, default)`. -/
def instrGetD (inst : Instr) (k : String) (d : Value) : Value :=
  (instrGet inst k).getD d

/-- Remove a key's binding. -/
def instrRemove : Instr → String → Instr
  | [], _ => []
  | (k', v) :: rest, k =>
    if k' = k then instrRemove rest k else (k', v) :: instrRemove rest k

/-- Python `instruction.pop(k)` when the key is present: the value and
the dict without it. -/
def instrPop (inst : Instr) (k : String) : Option (Value × Instr) :=
  (instrGet inst k).map (fun v => (v, instrRemove inst k))

/-- Python `instruction.pop(k, default)`: the value (or the default) and
the remaining dict. -/
def instrPopD (inst : Instr) (k : String) (d : Value) : Value × Instr :=
  match instrPop inst k with
  | some p => p
  | none => (d, inst)

/-- Python `instruction[k] = v`: replace the binding in place, or append
a new one. -/
def instrSet : Instr → String → Value → Instr
  | [], k, v => [(k, v)]
  | (k', v') :: rest, k, v =>
    if k' = k then (k, v) :: rest else (k', v') :: instrSet rest k v

/-- Python `instruction.update(d)`: merge `d`'s bindings into the dict,
overwriting existing keys. -/
def instrUpdate (inst : Instr) : List (String × Value) → Instr
  | [] => inst
  | (k, v) :: rest => instrUpdate (instrSet inst k v) rest

/-- The `Request` record `scraper.py` builds once per evaluation call:
the (deep-copied) instruction, the tag map, the input text, the caller's
force flag, and the id/uri pair. -/
structure Request where
  instruction : Value
  tags : Tags
  input : String
  force : Bool
  id : String
  uri : String
deriving Repr

/-- Modelled from the spec: the Response tagged union (`responses.py` is
not in src/): paused (`missingTags`, `wait`), done (`doneLoad`,
`doneFind`), grouped (`referenced`) or `failed`.  A `Result` is the pair
of the produced raw value and whatever `_run_children` returned for it
(which, in this source, is always `none` — see `runChildren`). -/
inductive Response where
  | missingTags (req : Request) (names : List String)
  | wait (req : Request) (name : SubValue) (description : Value)
  | doneLoad (req : Request) (name : SubValue) (description : Value)
      (result : String × Option (List Response))
  | doneFind (req : Request) (name : SubValue) (description : Value)
      (results : List (String × Option (List Response)))
  | referenced (req : Request) (children : List Response)
  | failed (req : Request) (reason : String)

/-- The request a response carries. -/
def Response.request : Response → Request
  | Response.missingTags req _ => req
  | Response.wait req _ _ => req
  | Response.doneLoad req _ _ _ => req
  | Response.doneFind req _ _ _ => req
  | Response.referenced req _ => req
  | Response.failed req _ => req

/-- The arguments `_scrape_load` hands to the session requester:
HTTP method, resolved url, optional form data, resolved cookies and
headers. -/
structure FetchArgs where
  method : String
  url : SubValue
  data : Option SubValue
  cookies : SubValue
  headers : SubValue

/-- What the external fetch produces: an HTTP response (status code and
body text) or a transport-level `RequestException`. -/
inductive FetchResult where
  | resp (status : Nat) (text : String)
  | transportError (msg : String)

/-- The external Fetcher collaborator (the `requests` session). -/
abbrev Fetcher := FetchArgs → FetchResult

/-- The external regex engine: `Regex(find, ignore_case, multiline,
dot_matches_all, replace).substitutions(input)` from the missing
`patterns.py`, as a parameter of the evaluator. -/
abbrev RegexEngine := SubValue → Bool → Bool → Bool → SubValue → String → List String

/-- The source's `_run_children` has an empty body (`pass`): it returns
`None` for every input and never evaluates the `then` instructions. -/
def runChildren (input : String) (thn : Value) : Option (List Response) :=
  let _ := input
  let _ := thn
  none

/-- `Scraper._scrape_find` from `scraper.py` lines 68-108, with the
missing regex engine as a parameter.  Note that `min_match`, `max_match`
and `match` are computed exactly as in the source (lines 82-89) and then,
exactly as in the source, never passed to the regex engine (line 99
constructs `Regex` without them). -/
def scrapeFind (engine : RegexEngine) (req : Request) (instruction : Instr)
    (description : Value) (thn : Value) : Except PyErr Response :=
  match instrGet instruction "find" with
  | none => Except.error (PyErr.invalidInstruction "Missing regex")
  | some findv =>
  match Substitution findv req.tags with
  | Except.error e => Except.error e
  | Except.ok findSub =>
  match Substitution (instrGetD instruction "replace" (Value.vStr "$0")) req.tags with
  | Except.error e => Except.error e
  | Except.ok replaceSub =>
  match Substitution (instrGetD instruction "name" Value.vNull) req.tags with
  | Except.error e => Except.error e
  | Except.ok nameSub =>
  let ignore_case := truthyV (instrGetD instruction "case_insensitive" (Value.vBool false))
  let multiline := truthyV (instrGetD instruction "multiline" (Value.vBool false))
  let dot_matches_all := truthyV (instrGetD instruction "dot_matches_all" (Value.vBool true))
  let min_match := instrGetD instruction "min_match" (Value.vNum 0)
  let max_match := instrGetD instruction "max_match" (Value.vNum (-1))
  let mtch := instrGetD instruction "match" Value.vNull
  let min_match := if isNone mtch then min_match else mtch
  let max_match := if isNone mtch then max_match else mtch
  match addMissing [findSub, replaceSub, nameSub] with
  | missing@(_ :: _) => Except.ok (Response.missingTags req missing)
  | [] =>
  match Subst.result nameSub with
  | Except.error e => Except.error e
  | Except.ok nameR =>
  match Subst.result findSub with
  | Except.error e => Except.error e
  | Except.ok findR =>
  match Subst.result replaceSub with
  | Except.error e => Except.error e
  | Except.ok replaceR =>
  let name := if truthyS nameR then nameR else findR
  let _ := min_match
  let _ := max_match
  let results := (engine findR ignore_case multiline dot_matches_all replaceR req.input).map
    (fun s => (s, runChildren s thn))
  match results with
  | [] => Except.ok (Response.failed req "No matches")
  | _ :: _ => Except.ok (Response.doneFind req name description results)

/-- The method-validation step of `_scrape_load` (lines 119-123): the
method defaults to `get` and must be one of `head`, `get`, `post`;
anything else (including a non-string) is not in that list. -/
def methodOf (instruction : Instr) : Option String :=
  match instrGetD instruction "method" (Value.vStr "get") with
  | Value.vStr s => if s = "head" || s = "get" || s = "post" then some s else none
  | _ => none

/-- `Scraper._scrape_load` from `scraper.py` lines 110-161.  The second
component counts calls to the session requester (the fetch), so that
"performs no fetch" is a statement of the embedding.  Three source
behaviours worth noting, all translated as written: the `force`
parameter of the function is never used — line 140 tests the
instruction's own `force` key instead; `add_missing` on lines 132-133 is
given `urlSub, nameSub, postsSub, cookiesSub` but not `headersSub`, so
reading `headersSub.result` on line 145 can raise the
incomplete-template error; and the `except` clause on line 160 names
`requests.exception.RequestException`, an attribute the `requests`
module does not have (the module is `requests.exceptions`), so a
transport-level error raises `AttributeError` instead of being caught. -/
def scrapeLoad (fetcher : Fetcher) (req : Request) (instruction : Instr)
    (force : Value) (description : Value) (thn : Value) : Except PyErr Response × Nat :=
  let _ := force
  match instrGet instruction "url" with
  | none => (Except.error (PyErr.invalidInstruction "Missing URL"), 0)
  | some urlv =>
  match methodOf instruction with
  | none =>
    (Except.error (PyErr.invalidInstruction
      ("Illegal HTTP method: " ++ pyStrV (instrGetD instruction "method" (Value.vStr "get")))), 0)
  | some method =>
  match Substitution urlv req.tags with
  | Except.error e => (Except.error e, 0)
  | Except.ok urlSub =>
  match Substitution (instrGetD instruction "name" Value.vNull) req.tags with
  | Except.error e => (Except.error e, 0)
  | Except.ok nameSub =>
  match Substitution (instrGetD instruction "posts" Value.vNull) req.tags with
  | Except.error e => (Except.error e, 0)
  | Except.ok postsSub =>
  match Substitution (instrGetD instruction "cookies" (Value.vDict [])) req.tags with
  | Except.error e => (Except.error e, 0)
  | Except.ok cookiesSub =>
  match Substitution (instrGetD instruction "headers" (Value.vDict [])) req.tags with
  | Except.error e => (Except.error e, 0)
  | Except.ok headersSub =>
  match addMissing [urlSub, nameSub, postsSub, cookiesSub] with
  | missing_tags@(_ :: _) => (Except.ok (Response.missingTags req missing_tags), 0)
  | [] =>
  match Subst.result urlSub with
  | Except.error e => (Except.error e, 0)
  | Except.ok url =>
  match Subst.result nameSub with
  | Except.error e => (Except.error e, 0)
  | Except.ok nameR =>
  let name := if truthyS nameR then nameR else url
  match instrGet instruction "force" with
  | some (Value.vBool true) =>
    (match Subst.result postsSub with
    | Except.error e => (Except.error e, 0)
    | Except.ok posts =>
    match Subst.result cookiesSub with
    | Except.error e => (Except.error e, 0)
    | Except.ok cookies =>
    match Subst.result headersSub with
    | Except.error e => (Except.error e, 0)
    | Except.ok headers =>
    let data := if method = "post" || truthyS posts then some posts else none
    match fetcher ⟨method, url, data, cookies, headers⟩ with
    | FetchResult.resp code text =>
      if code = 200 then
        (Except.ok (Response.doneLoad req name description (text, runChildren text thn)), 1)
      else
        (Except.ok (Response.failed req
          ("Status code " ++ toString code ++ " from " ++ pyStrS url)), 1)
    | FetchResult.transportError m =>
      let _ := m
      (Except.error (PyErr.attributeError "module object has no attribute exception"), 1))
  | _ => (Except.ok (Response.wait req name description), 0)

/-- Depth of a value's nesting, with a recursion budget (each level of a
dict or list consumes one unit; the budget of 1000 is far beyond any
value the theorems touch). -/
def valueDepthF : Nat → Value → Nat
  | 0, _ => 0
  | fuel + 1, Value.vDict d => 1 + (d.map (fun kv => valueDepthF fuel kv.2)).foldr max 0
  | fuel + 1, Value.vList l => 1 + (l.map (fun v => valueDepthF fuel v)).foldr max 0
  | _ + 1, _ => 0

/-- The `while 'extends' in instruction` loop of `_scrape_dict`
(lines 172-180): pop `extends`; a string means a remote instruction
(`_load_uri`, which raises `NotImplementedError`); a dict is merged with
`instruction.update(extends)`, overwriting keys; anything else raises
`InvalidInstruction`.  Each iteration's next `extends` value comes from
strictly deeper inside the original value, so the nesting depth bounds
the iteration count; the fuel argument carries that bound. -/
def scrapeDictExtends : Nat → Instr → Except PyErr Instr
  | fuel, inst =>
    match instrPop inst "extends" with
    | none => Except.ok inst
    | some (ext, rest) =>
      match ext with
      | Value.vStr _ =>
        Except.error (PyErr.notImplementedError "Remotely constructed instructions not yet supported")
      | Value.vDict d =>
        (match fuel with
        | 0 => Except.error PyErr.recursionError
        | fuel + 1 => scrapeDictExtends fuel (instrUpdate rest d))
      | _ => Except.error (PyErr.invalidInstruction "`extends` must be a dict or str")

/-- `Scraper._scrape_dict` from `scraper.py` lines 163-187, with the
post-state of the (mutated in place) instruction dict returned next to
the outcome.  `then` and `description` are popped, the `extends` loop
rewrites the dict, and dispatch tests `find` before `load`; note that
the `load` dispatch on line 185 passes `(req, instruction, description,
then)` to a method whose signature (line 110) takes `(req, instruction,
force, description, then)` — one positional argument short, which in
Python raises `TypeError` before `_scrape_load` runs. -/
def scrapeDict (fetcher : Fetcher) (engine : RegexEngine) (req : Request)
    (inst : Instr) : Except PyErr Response × Instr :=
  let _ := fetcher
  let p1 := instrPopD inst "then" (Value.vList [])
  let thn := p1.1
  let p2 := instrPopD p1.2 "description" Value.vNull
  let description := p2.1
  let i2 := p2.2
  match scrapeDictExtends (valueDepthF 1000 (Value.vDict i2) + 1) i2 with
  | Except.error e => (Except.error e, i2)
  | Except.ok i3 =>
    if (instrGet i3 "find").isSome then
      (scrapeFind engine req i3 description thn, i3)
    else if (instrGet i3 "load").isSome then
      (Except.error (PyErr.typeError "_scrape_load() takes exactly 6 arguments (5 given)"), i3)
    else
      (Except.error (PyErr.invalidInstruction "Could not find `find` or `load` key."), i3)

/-- Sequence a list of Python-style outcomes, stopping at the first
raised exception (a `for` loop that appends). -/
def seqExcept : List (Except PyErr α) → Except PyErr (List α)
  | [] => Except.ok []
  | Except.error e :: _ => Except.error e
  | Except.ok a :: rest => (seqExcept rest).map (fun l => a :: l)

/-- `Scraper.scrape` from `scraper.py` lines 189-233, with an explicit
recursion budget standing for Python's recursion limit (1000 frames by
default).  A string instruction is substituted and then handed to
`_load_uri`; when it has missing tags, the source reads
`instructionSub.missingTags` — an attribute `Substitution` does not have
(the property is `missing_tags`) — raising `AttributeError`, and
otherwise `_load_uri` raises `NotImplementedError`.  A list is evaluated
item by item on a cloned scraper with `force=False`.  A dict goes to
`_scrape_dict`.  Anything else raises `InvalidInstruction`.  The result
carries the post-state of the caller's instruction document, which dict
evaluation mutates in place; `Request` however stores a deep copy made
before that mutation.  The fresh uuid and `os.getcwd()` defaults for
`id`/`uri` are supplied as the `genId`/`cwd` parameters. -/
def scrapeFuel (fetcher : Fetcher) (engine : RegexEngine) (genId cwd : String) :
    Nat → Value → Tags → String → Bool → Option String → Option String →
    Except PyErr (Response × Value)
  | fuel, instruction, tags, input, force, kid, kuri =>
    match instruction with
    | Value.vStr s =>
      let instructionSub := subTmplStr tags s
      match dedupNames instructionSub.2 with
      | _ :: _ =>
        Except.error (PyErr.attributeError "Substitution instance has no attribute missingTags")
      | [] =>
        Except.error (PyErr.notImplementedError "Remotely constructed instructions not yet supported")
    | _ =>
      let req : Request :=
        ⟨instruction, tags, input, force, kid.getD genId, kuri.getD cwd⟩
      match instruction with
      | Value.vList items =>
        (match fuel with
        | 0 => Except.error PyErr.recursionError
        | fuel + 1 =>
          (seqExcept (items.map
            (fun i => scrapeFuel fetcher engine genId cwd fuel i tags input false none none))).map
            (fun prs => (Response.referenced req (prs.map (fun pr => pr.1)),
                         Value.vList (prs.map (fun pr => pr.2)))))
      | Value.vDict d =>
        let r := scrapeDict fetcher engine req d
        (r.1).map (fun resp => (resp, Value.vDict r.2))
      | other => Except.error (PyErr.invalidInstruction (pyStrV other))

/-- The public entry point `scrape(instruction, tags={}, input='',
force=False, **kwargs)`, at Python's default recursion limit. -/
def scrape (fetcher : Fetcher) (engine : RegexEngine) (genId cwd : String)
    (instruction : Value) (tags : Tags) (input : String) (force : Bool)
    (kid kuri : Option String) : Except PyErr (Response × Value) :=
  scrapeFuel fetcher engine genId cwd 1000 instruction tags input force kid kuri

/-- Collect the maximal runs of decimal digits in a character list, left
to right (`cur` holds the current run, reversed). -/
def digitRunsAux (cur : List Char) : List Char → List String
  | [] => if cur.isEmpty then [] else [String.mk cur.reverse]
  | c :: rest =>
    if c.isDigit then digitRunsAux (c :: cur) rest
    else if cur.isEmpty then digitRunsAux [] rest
    else String.mk cur.reverse :: digitRunsAux [] rest

/-- The maximal digit runs of a string, in order. -/
def digitRuns (s : String) : List String := digitRunsAux [] s.data

/-- Modelled from the spec: the regex engine (`patterns.py` is not in
src/) as compiled from the pattern `(\d+)` with replacement `$1` — one
substitution per occurrence, each the matched digit run, in order.  The
engine receives only the pattern, the three flags, the replacement and
the input, exactly the data the source passes it. -/
def digitRunsEngine : RegexEngine :=
  fun _pattern _ignoreCase _multiline _dotAll _replace input => digitRuns input

/-- A regex engine whose pattern matches nothing. -/
def emptyEngine : RegexEngine :=
  fun _pattern _ignoreCase _multiline _dotAll _replace _input => []

/-- A regex engine yielding a single substitution `m`. -/
def engineOne : RegexEngine :=
  fun _pattern _ignoreCase _multiline _dotAll _replace _input => ["m"]

/-- A Fetcher stub answering status 200 with body `body`. -/
def fetcher200 : Fetcher := fun _args => FetchResult.resp 200 "body"

/-- A Fetcher stub raising a transport-level error. -/
def fetcherBoom : Fetcher := fun _args => FetchResult.transportError "connection refused"

/-! Concrete fixtures used by the claim theorems. -/

/-- A load instruction whose own `force` key is true. -/
def instX1 : Instr := [("url", Value.vStr "http://x"), ("force", Value.vBool true)]

/-- A request whose caller-supplied force flag is false. -/
def reqX1 : Request := ⟨Value.vDict instX1, [], "", false, "id0", "/cwd"⟩

/-- A load instruction with no `force` key. -/
def instW1 : Instr := [("url", Value.vStr "http://w")]

/-- A request whose caller-supplied force flag is true. -/
def reqW1 : Request := ⟨Value.vDict instW1, [], "", true, "id0", "/cwd"⟩

/-- The find instruction of spec §8: pattern `(\d+)`, replacement `$1`,
with `min_match = 1`. -/
def instX2 : Instr :=
  [("find", Value.vStr "(\\d+)"), ("replace", Value.vStr "$1"), ("min_match", Value.vNum 1)]

/-- The same find instruction with `match = 0`. -/
def instX2m : Instr :=
  [("find", Value.vStr "(\\d+)"), ("replace", Value.vStr "$1"), ("match", Value.vNum 0)]

/-- The request for `instX2`, input `a1 b22 c333`. -/
def reqX2 : Request := ⟨Value.vDict instX2, [], "a1 b22 c333", false, "id0", "/cwd"⟩

/-- The request for `instX2m`, input `a1 b22 c333`. -/
def reqX2m : Request := ⟨Value.vDict instX2m, [], "a1 b22 c333", false, "id0", "/cwd"⟩

/-- A nonempty `then` list: one child find instruction. -/
def thenX3 : Value := Value.vList [Value.vDict [("find", Value.vStr "a")]]

/-- The request for the forced load of the C3 theorem. -/
def reqX3 : Request := ⟨Value.vDict instX1, [], "", true, "id0", "/cwd"⟩

/-- A step whose own `find` key would be overridden by its `extends`. -/
def instX4 : Instr :=
  [("find", Value.vStr "a"), ("extends", Value.vDict [("find", Value.vStr "b")])]

/-- The extends dict of the C4 witness: it overrides `find` and adds `x`. -/
def dW4 : List (String × Value) := [("find", Value.vStr "b"), ("x", Value.vNum 2)]

/-- The C4 witness instruction. -/
def instW4 : Instr := [("find", Value.vStr "a"), ("extends", Value.vDict dW4)]

/-- A step carrying both a `find` and a `load` key. -/
def instX5 : Instr := [("find", Value.vStr "f"), ("load", Value.vStr "u")]

/-- The request for `instX5`. -/
def reqX5 : Request := ⟨Value.vDict instX5, [], "in", false, "id0", "/cwd"⟩

/-- A step with neither `find` nor `load`. -/
def instW5 : Instr := [("foo", Value.vNum 1)]

/-- The request for `instW5`. -/
def reqW5 : Request := ⟨Value.vDict instW5, [], "", false, "id0", "/cwd"⟩

/-- A forced load whose only templated field with a missing tag is
`headers` (the placeholder for tag `h`, written with braces in the
source document). -/
def instX6 : Instr :=
  [("url", Value.vStr "http://x"),
   ("headers", Value.vDict [("X", Value.vStr "\x7b\x7bh\x7d\x7d")]),
   ("force", Value.vBool true)]

/-- The same load without the `force` key. -/
def instX6b : Instr :=
  [("url", Value.vStr "http://x"),
   ("headers", Value.vDict [("X", Value.vStr "\x7b\x7bh\x7d\x7d")])]

/-- The request for `instX6` (empty tag map, so `h` is missing). -/
def reqX6 : Request := ⟨Value.vDict instX6, [], "", true, "id0", "/cwd"⟩

/-- The request for `instX6b`. -/
def reqX6b : Request := ⟨Value.vDict instX6b, [], "", false, "id0", "/cwd"⟩

/-- The request for the transport-error load of the C7 theorem. -/
def reqX7 : Request := ⟨Value.vDict instX1, [], "", true, "id0", "/cwd"⟩

/-- The C8 witness: a find instruction whose pattern matches nothing. -/
def instW8 : Instr := [("find", Value.vStr "x")]

/-- The request for `instW8`. -/
def reqW8 : Request := ⟨Value.vDict instW8, [], "abc", false, "id0", "/cwd"⟩

/-- The double-brace template of the url-encoding tests, `((foo))`
written with braces. -/
def tmplEnc : String := "\x7b\x7bfoo\x7d\x7d"

/-- The triple-brace template `(((foo)))` written with braces. -/
def tmplRaw : String := "\x7b\x7b\x7bfoo\x7d\x7d\x7d"

/-- The triple-brace template `(((url)))` written with braces. -/
def tmplRawUrl : String := "\x7b\x7b\x7burl\x7d\x7d\x7d"

/-- The reserved-character URL of `test_not_url_encoding_a_url`. -/
def urlX9 : String := "http://www.host.com/foo/bar/baz%20is%20ok?foo=bar&baz=boo"

/-- The entries of the C10 instruction document: a find step with
`then`, `description` and an `extends` that contributes `replace`. -/
def entriesX10 : Instr :=
  [("find", Value.vStr "f"), ("then", Value.vList []),
   ("description", Value.vStr "d"),
   ("extends", Value.vDict [("replace", Value.vStr "$1")])]

/-- The C10 instruction document as handed to `scrape`. -/
def instructionX10 : Value := Value.vDict entriesX10

/-- The entries of the C10 document after `scrape` returns: `then`,
`description` and `extends` destructively removed, the merged `replace`
folded in. -/
def postX10 : Instr := [("find", Value.vStr "f"), ("replace", Value.vStr "$1")]

/-- The request `scrape` builds for the C10 document. -/
def reqX10 : Request := ⟨instructionX10, [], "inp", false, "gid", "/cwd"⟩

/-- Uniqueness of the keys of a Python dict (holds for every real dict). -/
def uniqueKeys (d : List (String × Value)) : Prop := (d.map Prod.fst).Nodup

/-! Helper lemmas about the dict operations. -/

/-- Reading the result of a complete substitution returns its value. -/
theorem Subst.result_of_complete (s : Subst) (h : s.missing = []) :
    Subst.result s = Except.ok s.value := by
  simp [Subst.result, h]

/-- Setting a key and reading it back. -/
theorem instrGet_set_self (r : Instr) (k : String) (v : Value) :
    instrGet (instrSet r k v) k = some v := by
  induction r with
  | nil => simp [instrSet, instrGet]
  | cons e rest ih =>
    obtain ⟨k1, v1⟩ := e
    by_cases h : k1 = k
    · simp [instrSet, instrGet, h]
    · simp [instrSet, instrGet, h, ih]

/-- Setting one key leaves the others unchanged. -/
theorem instrGet_set_other (r : Instr) (k' k : String) (v : Value) (h : k' ≠ k) :
    instrGet (instrSet r k' v) k = instrGet r k := by
  induction r with
  | nil => simp [instrSet, instrGet, h]
  | cons e rest ih =>
    obtain ⟨k1, v1⟩ := e
    by_cases h1 : k1 = k'
    · subst h1
      simp [instrSet, instrGet, h, Ne.symm h]
    · by_cases h2 : k1 = k
      · simp [instrSet, instrGet, h1, h2, Ne.symm h]
      · simp [instrSet, instrGet, h1, h2, ih]

/-- Updating with a dict that lacks a key leaves that key's binding
unchanged. -/
theorem instrGet_update_not_mem (d : List (String × Value)) (r : Instr) (k : String)
    (h : k ∉ d.map Prod.fst) :
    instrGet (instrUpdate r d) k = instrGet r k := by
  induction d generalizing r with
  | nil => simp [instrUpdate]
  | cons e rest ih =>
    obtain ⟨k1, v1⟩ := e
    simp only [List.map_cons, List.mem_cons] at h
    push_neg at h
    simp only [instrUpdate]
    rw [ih _ h.2, instrGet_set_other _ _ _ _ (fun he => h.1 he.symm)]

/-- A binding of the update dict wins over the base dict (for a dict
with unique keys). -/
theorem instrGet_update_mem (d : List (String × Value)) (r : Instr) (k : String)
    (w : Value) (hu : uniqueKeys d) (h : instrGet d k = some w) :
    instrGet (instrUpdate r d) k = some w := by
  induction d generalizing r with
  | nil => simp [instrGet] at h
  | cons e rest ih =>
    obtain ⟨k1, v1⟩ := e
    simp only [uniqueKeys, List.map_cons, List.nodup_cons] at hu
    by_cases h1 : k1 = k
    · subst h1
      simp only [instrGet, if_pos rfl] at h
      cases h
      simp only [instrUpdate]
      rw [instrGet_update_not_mem _ _ _ hu.1, instrGet_set_self]
    · simp only [instrGet, if_neg h1] at h
      simp only [instrUpdate]
      exact ih (instrSet r k1 v1) hu.2 h

/-! The claim theorems. -/

/-- C1, counterexample: the claim says that whenever the caller's force
flag is not explicitly true the evaluator returns `Wait` and performs no
fetch.  Here the caller's flag is false (`reqX1.force = false`), yet the
load handler performs the fetch (requester call-count 1) and returns
`DoneLoad`, because line 140 of `scraper.py` consults the instruction's
own `force` key — `instX1` carries `force: true` — and never the
caller's flag. -/
theorem C1_caller_force_ignored :
    reqX1.force = false ∧
    scrapeLoad fetcher200 reqX1 instX1 Value.vNull Value.vNull (Value.vList []) =
      (Except.ok (Response.doneLoad reqX1 (SubValue.str "http://x") Value.vNull
        ("body", none)), 1) :=
  ⟨rfl, rfl⟩

/-- C2, evaluation of the embedded code at the failing input: the find
step with pattern `(\d+)`, replacement `$1`, input `a1 b22 c333` yields
all three occurrences `["1","22","333"]` even with `min_match = 1`
(which the claim says should give `["22","333"]`) and even with
`match = 0` (which the claim says should give exactly `["1"]`): lines
83-89 of `scraper.py` compute `min_match`/`max_match`/`match` but line
99 constructs the `Regex` without them, so the bounds never reach the
engine. -/
theorem C2_bounds_never_applied :
    scrapeFind digitRunsEngine reqX2 instX2 Value.vNull (Value.vList []) =
      Except.ok (Response.doneFind reqX2 (SubValue.str "(\\d+)") Value.vNull
        [("1", none), ("22", none), ("333", none)]) ∧
    scrapeFind digitRunsEngine reqX2m instX2m Value.vNull (Value.vList []) =
      Except.ok (Response.doneFind reqX2m (SubValue.str "(\\d+)") Value.vNull
        [("1", none), ("22", none), ("333", none)]) :=
  ⟨rfl, rfl⟩

/-- C3, evaluation of the embedded code at the failing input: a forced
load with a non-empty `then` list and a stub fetcher answering 200 with
body `body` produces `DoneLoad` whose result is `("body", none)` — the
children are `None`, not the evaluations of `then`, because
`_run_children` (lines 61-66) is an unimplemented stub whose body is
`pass`. -/
theorem C3_then_never_evaluated :
    scrapeLoad fetcher200 reqX3 instX1 Value.vNull Value.vNull thenX3 =
      (Except.ok (Response.doneLoad reqX3 (SubValue.str "http://x") Value.vNull
        ("body", none)), 1) :=
  rfl

/-- C4, counterexample: the claim says extending fields never override
keys already present in the step's own fields.  Here the step's own
`find` is `a` and its `extends` carries `find: b`; after the merge the
step's `find` is `b` — `instruction.update(extends)` (line 178, comment
"Extend our instruction dict, overwriting keys") lets the extends value
win. -/
theorem C4_extends_overrides_counterexample :
    scrapeDictExtends (valueDepthF 1000 (Value.vDict instX4) + 1) instX4 =
      Except.ok [("find", Value.vStr "b")] :=
  rfl

/-- C4, amended: an object step is repeatedly shallow-merged with its
`extends` value, and the merge is `dict.update`: extending fields DO
override keys already present in the step's own fields.  For a one-level
inline extends dict `d` (unique keys, no nested `extends`), the loop
returns `instruction.update(d)`, and every key of `d` reads back with
`d`'s value, also when the step already bound it. -/
theorem C4_extends_update (fuel : Nat) (inst rest : Instr) (d : List (String × Value))
    (hpop : instrPop inst "extends" = some (Value.vDict d, rest))
    (hno : instrGet (instrUpdate rest d) "extends" = none)
    (hud : uniqueKeys d) :
    scrapeDictExtends (fuel + 1) inst = Except.ok (instrUpdate rest d) ∧
    ∀ k w, instrGet d k = some w → instrGet (instrUpdate rest d) k = some w := by
  constructor
  · rw [scrapeDictExtends, hpop]
    simp only []
    rw [scrapeDictExtends]
    simp [instrPop, hno]
  · intro k w h
    exact instrGet_update_mem d rest k w hud h

/-- C4, witness: the amended theorem applied to a concrete step whose
`extends` dict overrides `find` and adds `x`. -/
theorem C4_extends_update_witness :
    scrapeDictExtends 1 instW4 = Except.ok [("find", Value.vStr "b"), ("x", Value.vNum 2)] ∧
    instrGet [("find", Value.vStr "b"), ("x", Value.vNum 2)] "find" = some (Value.vStr "b") :=
  ⟨(C4_extends_update 0 instW4 [("find", Value.vStr "a")] dW4 rfl rfl (by unfold uniqueKeys; decide)).1,
   (C4_extends_update 0 instW4 [("find", Value.vStr "a")] dW4 rfl rfl (by unfold uniqueKeys; decide)).2
     "find" (Value.vStr "b") rfl⟩

/-- C1, amended: the load handler gates the fetch on the instruction's
own `force` key, not on the caller's force flag.  For a well-formed load
step (a `url`, a legal method, no missing tags anywhere): when the
instruction's `force` key is not exactly `True`, the handler returns
`Wait(request, name, description)` with requester call-count 0; when it
is `True`, the requester is called exactly once. -/
theorem C1_force_key_gates (fetcher : Fetcher) (req : Request) (inst : Instr)
    (force description thn : Value) (urlv : Value) (method : String)
    (us ns ps cs hs : Subst)
    (hurl : instrGet inst "url" = some urlv)
    (hm : methodOf inst = some method)
    (hu : Substitution urlv req.tags = Except.ok us)
    (hn : Substitution (instrGetD inst "name" Value.vNull) req.tags = Except.ok ns)
    (hp : Substitution (instrGetD inst "posts" Value.vNull) req.tags = Except.ok ps)
    (hc : Substitution (instrGetD inst "cookies" (Value.vDict [])) req.tags = Except.ok cs)
    (hh : Substitution (instrGetD inst "headers" (Value.vDict [])) req.tags = Except.ok hs)
    (hmiss : addMissing [us, ns, ps, cs] = [])
    (hu0 : us.missing = []) (hn0 : ns.missing = []) (hp0 : ps.missing = [])
    (hc0 : cs.missing = []) (hh0 : hs.missing = []) :
    (instrGet inst "force" ≠ some (Value.vBool true) →
      scrapeLoad fetcher req inst force description thn =
        (Except.ok (Response.wait req
          (if truthyS ns.value then ns.value else us.value) description), 0)) ∧
    (instrGet inst "force" = some (Value.vBool true) →
      (scrapeLoad fetcher req inst force description thn).2 = 1) := by
  have hload : scrapeLoad fetcher req inst force description thn =
      (match instrGet inst "force" with
      | some (Value.vBool true) =>
        (match fetcher ⟨method, us.value,
            if method = "post" || truthyS ps.value then some ps.value else none,
            cs.value, hs.value⟩ with
        | FetchResult.resp code text =>
          if code = 200 then
            (Except.ok (Response.doneLoad req
              (if truthyS ns.value then ns.value else us.value) description
              (text, runChildren text thn)), 1)
          else
            (Except.ok (Response.failed req
              ("Status code " ++ toString code ++ " from " ++ pyStrS us.value)), 1)
        | FetchResult.transportError _ =>
          (Except.error (PyErr.attributeError "module object has no attribute exception"), 1))
      | _ => (Except.ok (Response.wait req
          (if truthyS ns.value then ns.value else us.value) description), 0)) := by
    simp only [scrapeLoad, hurl, hm, hu, hn, hp, hc, hh, hmiss,
      Subst.result_of_complete us hu0, Subst.result_of_complete ns hn0,
      Subst.result_of_complete ps hp0, Subst.result_of_complete cs hc0,
      Subst.result_of_complete hs hh0]
  constructor
  · intro hforce
    rw [hload]
    split
    · rename_i heq
      exact absurd heq hforce
    · rfl
  · intro hforce
    rw [hload, hforce]
    rcases fetcher ⟨method, us.value,
        if method = "post" || truthyS ps.value then some ps.value else none,
        cs.value, hs.value⟩ with ⟨code, text⟩ | m
    · by_cases h200 : code = 200
      · simp only [if_pos h200]
      · simp only [if_neg h200]
    · rfl

/-- C1, witness: the amended theorem at a load step with no `force` key
and a caller-supplied force flag that is `true` — the handler still
returns `Wait` and performs no fetch. -/
theorem C1_force_key_gates_witness :
    scrapeLoad fetcher200 reqW1 instW1 Value.vNull Value.vNull (Value.vList []) =
      (Except.ok (Response.wait reqW1 (SubValue.str "http://w") Value.vNull), 0) :=
  (C1_force_key_gates fetcher200 reqW1 instW1 Value.vNull Value.vNull (Value.vList [])
    (Value.vStr "http://w") "get"
    ⟨[], SubValue.str "http://w"⟩ ⟨[], SubValue.null⟩ ⟨[], SubValue.null⟩
    ⟨[], SubValue.dict []⟩ ⟨[], SubValue.dict []⟩
    rfl rfl rfl rfl rfl rfl rfl rfl rfl rfl rfl rfl rfl).1
    (fun h => Option.noConfusion h)

/-- C5, counterexample: the claim says a step containing both `find` and
`load` fails fatally with `InvalidInstruction`.  Here `instX5` carries
both keys, yet `_scrape_dict` raises nothing: its `if 'find' in
instruction / elif 'load' in instruction` chain (lines 182-185)
dispatches to the find handler, which completes with `DoneFind`. -/
theorem C5_both_keys_counterexample :
    instrGet instX5 "find" = some (Value.vStr "f") ∧
    instrGet instX5 "load" = some (Value.vStr "u") ∧
    (scrapeDict fetcher200 engineOne reqX5 instX5).1 =
      Except.ok (Response.doneFind reqX5 (SubValue.str "f") Value.vNull [("m", none)]) :=
  ⟨rfl, rfl, rfl⟩

/-- C5, amended: after `then`/`description` are popped and the `extends`
loop has run, a step with neither `find` nor `load` fails fatally with
`InvalidInstruction`; a step with both keys is dispatched to the find
handler (find takes precedence) and no error is raised. -/
theorem C5_exactly_one_operation (fetcher : Fetcher) (engine : RegexEngine)
    (req : Request) (inst : Instr) (thn description : Value) (i1 i2 : Instr)
    (hthen : instrPopD inst "then" (Value.vList []) = (thn, i1))
    (hdesc : instrPopD i1 "description" Value.vNull = (description, i2))
    (hext : instrGet i2 "extends" = none) :
    ((instrGet i2 "find" = none → instrGet i2 "load" = none →
      (scrapeDict fetcher engine req inst).1 =
        Except.error (PyErr.invalidInstruction "Could not find `find` or `load` key.")) ∧
    (∀ fv lv, instrGet i2 "find" = some fv → instrGet i2 "load" = some lv →
      (scrapeDict fetcher engine req inst).1 = scrapeFind engine req i2 description thn)) := by
  have hloop : scrapeDictExtends (valueDepthF 1000 (Value.vDict i2) + 1) i2 =
      Except.ok i2 := by
    rw [scrapeDictExtends]
    simp [instrPop, hext]
  constructor
  · intro hf hl
    simp only [scrapeDict, hthen, hdesc, hloop, hf, hl, Option.isSome_none,
      Bool.false_eq_true, if_false]
  · intro fv lv hf hl
    simp only [scrapeDict, hthen, hdesc, hloop, hf, Option.isSome_some, if_true]

/-- C5, witness: the amended theorem at a step with neither operation
key. -/
theorem C5_exactly_one_operation_witness :
    (scrapeDict fetcher200 engineOne reqW5 instW5).1 =
      Except.error (PyErr.invalidInstruction "Could not find `find` or `load` key.") :=
  (C5_exactly_one_operation fetcher200 engineOne reqW5 instW5
    (Value.vList []) Value.vNull instW5 instW5 rfl rfl rfl).1 rfl rfl

/-- C6, evaluation of the embedded code at the failing input: a load
whose only missing tag names come from `headers` is not paused with
`MissingTags`.  With `force: true` the handler goes on to read
`headersSub.result` (line 145) and raises the incomplete-template error,
because lines 132-133 pass `urlSub, nameSub, postsSub, cookiesSub` — but
not `headersSub` — to `add_missing`; without `force` it returns `Wait`.
In neither mode does the promised `MissingTags(request, ["h"])` appear. -/
theorem C6_headers_missing_unchecked :
    scrapeLoad fetcher200 reqX6 instX6 Value.vNull Value.vNull (Value.vList []) =
      (Except.error PyErr.templateResultError, 0) ∧
    scrapeLoad fetcher200 reqX6b instX6b Value.vNull Value.vNull (Value.vList []) =
      (Except.ok (Response.wait reqX6b (SubValue.str "http://x") Value.vNull), 0) :=
  ⟨rfl, rfl⟩

/-- C7, evaluation of the embedded code at the failing input: a forced
load whose fetch raises a transport-level error does not return
`Failed(request, message)` — the `except requests.exception.
RequestException` clause (line 160) names an attribute the `requests`
module does not have (the module is `requests.exceptions`), so matching
the handler itself raises `AttributeError`, which propagates to the
caller. -/
theorem C7_transport_error_raises :
    scrapeLoad fetcherBoom reqX7 instX1 Value.vNull Value.vNull (Value.vList []) =
      (Except.error (PyErr.attributeError "module object has no attribute exception"), 1) :=
  rfl

/-- C8: a find step whose occurrence sequence is empty returns
`Failed(request, "No matches")` — never an empty successful `DoneFind`.
(The match-count window never reduces the sequence — see the C2 theorem
— so the yielded occurrences are exactly the engine's occurrences.) -/
theorem C8_no_matches_failed (engine : RegexEngine) (req : Request) (inst : Instr)
    (description thn : Value) (findv : Value) (fs rs ns : Subst)
    (hfind : instrGet inst "find" = some findv)
    (hf : Substitution findv req.tags = Except.ok fs)
    (hr : Substitution (instrGetD inst "replace" (Value.vStr "$0")) req.tags = Except.ok rs)
    (hn : Substitution (instrGetD inst "name" Value.vNull) req.tags = Except.ok ns)
    (hmiss : addMissing [fs, rs, ns] = [])
    (hf0 : fs.missing = []) (hr0 : rs.missing = []) (hn0 : ns.missing = [])
    (hempty : engine fs.value
      (truthyV (instrGetD inst "case_insensitive" (Value.vBool false)))
      (truthyV (instrGetD inst "multiline" (Value.vBool false)))
      (truthyV (instrGetD inst "dot_matches_all" (Value.vBool true)))
      rs.value req.input = []) :
    scrapeFind engine req inst description thn =
      Except.ok (Response.failed req "No matches") := by
  simp only [scrapeFind, hfind, hf, hr, hn, hmiss,
    Subst.result_of_complete fs hf0, Subst.result_of_complete rs hr0,
    Subst.result_of_complete ns hn0, hempty, List.map_nil]

/-- C8, witness: a find whose pattern matches nothing in input `abc`. -/
theorem C8_no_matches_failed_witness :
    scrapeFind emptyEngine reqW8 instW8 Value.vNull (Value.vList []) =
      Except.ok (Response.failed reqW8 "No matches") :=
  C8_no_matches_failed emptyEngine reqW8 instW8 Value.vNull (Value.vList [])
    (Value.vStr "x") ⟨[], SubValue.str "x"⟩ ⟨[], SubValue.str "$0"⟩ ⟨[], SubValue.null⟩
    rfl rfl rfl rfl rfl rfl rfl rfl rfl

/-- C9: double-brace substitution inserts the percent/url-encoded value
(space encoded as `+`), triple-brace substitution inserts the value
verbatim; concretely, `bar baz` becomes `bar+baz` under double braces,
and substituting the reserved-character URL into the triple-brace url
template reproduces it exactly (round-trip). -/
theorem C9_encoding_roundtrip :
    (∀ v : String, (subTmplStr [("foo", v)] tmplEnc).1 = quotePlus v) ∧
    (∀ v : String, (subTmplStr [("foo", v)] tmplRaw).1 = v) ∧
    (subTmplStr [("foo", "bar baz")] tmplEnc).1 = "bar+baz" ∧
    (subTmplStr [("url", urlX9)] tmplRawUrl).1 = urlX9 := by
  refine ⟨fun v => ?_, fun v => ?_, rfl, rfl⟩
  · show quotePlus v ++ "" = quotePlus v
    exact String.append_empty _
  · show v ++ "" = v
    exact String.append_empty _

/-- C10: evaluating an object instruction mutates the caller's document
in place: `scrape` on the C10 document returns it with `then`,
`description` and `extends` destructively removed and the merged
`replace` folded in (the post-state differs from the original, whose
entries the last two conjuncts recall), while the `Request` inside the
response still holds the untouched deep copy of the original
document. -/
theorem C10_instruction_mutated :
    scrape fetcher200 engineOne "gid" "/cwd" instructionX10 [] "inp" false none none =
      Except.ok (Response.doneFind reqX10 (SubValue.str "f") (Value.vStr "d")
        [("m", none)], Value.vDict postX10) ∧
    reqX10.instruction = instructionX10 ∧
    instrGet entriesX10 "then" = some (Value.vList []) ∧
    instrGet postX10 "then" = none ∧
    instrGet entriesX10 "extends" = some (Value.vDict [("replace", Value.vStr "$1")]) ∧
    instrGet postX10 "extends" = none ∧
    instrGet postX10 "replace" = some (Value.vStr "$1") :=
  ⟨rfl, rfl, rfl, rfl, rfl, rfl, rfl⟩

end Pycaustic
